import Mathlib

/-!
Shallow embedding of `src/handler.py` from `gh-checks-to-irc`: a stateless
webhook endpoint that inspects GitHub check-suite-completed events, filters
them against a watch-list configuration and formats an alert message.

Modelling conventions:
* Python `dict` payload fields that the handler reads with `body["k"]` are
  `Option`-typed; a missing key raises `KeyError` in Python, which we model
  as `Except.error (Fault.keyError k)` propagating out of the handler.
* The header map `Dict[str, str]` is an association list; `dict.get` is an
  exact (case-sensitive) lookup of the first matching key.
* `json.loads` is external library code, abstracted as a `parse` parameter
  `String → Except String GitHubWebhookPayload`; the parser error string is
  whatever the library would render.
* The logging surface (the `debug` calls) is modelled as a `List LogEvent`
  carried in the result, so that what is logged and what is returned can be
  distinguished.
* Python string slicing `s[:n]` with an `int` bound is `pythonSliceTo`.
* `str.format` with the four named variables used at line 200 of the source
  is `formatTemplate`; an unknown placeholder name is a `Fault.formatError`
  (Python raises `KeyError`), as is a malformed template.
-/

/-- The `Config` TypedDict of the source (lines 7-13). -/
structure Config where
  repos : List Int
  branches : List String
  conclusions : List String
  watch_prs : Bool
  sha_length : Int
  message_template : String
deriving DecidableEq

/-- The module-level `config` literal of the source (lines 16-33). -/
def config : Config where
  repos := [23038334, 33104844]
  branches := ["master", "github-actions"]
  conclusions := ["failure", "action_required", "timed_out"]
  watch_prs := true
  sha_length := 8
  message_template :=
    "Build {conclusion} at {commit_desc} (by {committer}). Details: {commit_html_url}"

/-- The `LambdaHTTPEvent` TypedDict (lines 40-45). -/
structure LambdaHTTPEvent where
  headers : List (String × String)
  multiValueHeaders : List (String × List String)
  httpMethod : String
  path : String
  body : String
deriving DecidableEq

/-- The `LambdaResponse` TypedDict (lines 48-50). -/
structure LambdaResponse where
  statusCode : Int
  body : String
deriving DecidableEq

/-- TypedDict `GitHubWebhookPayloadRepository` (lines 53-56); fields are optional
because the payload is parsed JSON with no schema enforcement. -/
structure GitHubWebhookPayloadRepository where
  id : Option Int
  url : Option String
  name : Option String
deriving DecidableEq

/-- TypedDict `GitHubWebhookPayloadCommit` (lines 59-62). -/
structure GitHubWebhookPayloadCommit where
  ref : Option String
  sha : Option String
  repo : Option GitHubWebhookPayloadRepository
deriving DecidableEq

/-- TypedDict `GitHubWebhookPayloadPullRequest` (lines 65-70). -/
structure GitHubWebhookPayloadPullRequest where
  url : Option String
  id : Option Int
  number : Option Int
  head : Option GitHubWebhookPayloadCommit
  base : Option GitHubWebhookPayloadCommit
deriving DecidableEq

/-- TypedDict `GitHubWebhookPerson` (lines 73-76). -/
structure GitHubWebhookPerson where
  login : Option String
  id : Option Int
  html_url : Option String
deriving DecidableEq

/-- TypedDict `GithubWebhookCheckSuiteApp` (lines 79-82). -/
structure GithubWebhookCheckSuiteApp where
  id : Option Int
  owner : Option GitHubWebhookPerson
  name : Option String
deriving DecidableEq

/-- TypedDict `GitHubCommitCommitter` (lines 85-86). -/
structure GitHubCommitCommitter where
  name : Option String
deriving DecidableEq

/-- TypedDict `GitHubHeadCommit` (lines 89-90). -/
structure GitHubHeadCommit where
  committer : Option GitHubCommitCommitter
deriving DecidableEq

/-- TypedDict `GitHubWebhookPayloadCheckSuiteSection` (lines 93-104). The `status` and
`conclusion` literals of the TypedDict are not enforced at runtime, so they
are plain strings here. -/
structure GitHubWebhookPayloadCheckSuiteSection where
  head_branch : Option String
  head_sha : Option String
  status : Option String
  conclusion : Option String
  url : Option String
  pull_requests : Option (List GitHubWebhookPayloadPullRequest)
  app : Option GithubWebhookCheckSuiteApp
  updated_at : Option String
  head_commit : Option GitHubHeadCommit
deriving DecidableEq

/-- TypedDict `GitHubWebhookPayloadRepositorySection` (lines 107-112). -/
structure GitHubWebhookPayloadRepositorySection where
  id : Option Int
  name : Option String
  full_name : Option String
  html_url : Option String
  owner : Option GitHubWebhookPerson
deriving DecidableEq

/-- TypedDict `GitHubWebhookPayload` (lines 115-119); the untyped `sender` field is
never read by the handler and is omitted. -/
structure GitHubWebhookPayload where
  action : Option String
  check_suite : Option GitHubWebhookPayloadCheckSuiteSection
  repository : Option GitHubWebhookPayloadRepositorySection
deriving DecidableEq

/-- An unhandled Python exception escaping the handler: a `KeyError` from a
missing payload field, or an error from `str.format` (section 7 of the spec:
such conditions propagate unhandled). -/
inductive Fault where
  | keyError (key : String)
  | formatError (msg : String)
deriving DecidableEq

/-- Reading `d["k"]` on parsed JSON: the value if present, `KeyError`
otherwise. -/
def getField {α : Type} (key : String) : Option α → Except Fault α
  | some v => Except.ok v
  | none => Except.error (Fault.keyError key)

/-- Function `dict.get` on the header map: exact-match lookup of the first pair whose
key equals `k` (Python dict lookup is case-sensitive). -/
def dictGet (k : String) (d : List (String × String)) : Option String :=
  (d.find? (fun p => p.1 = k)).map (fun p => p.2)

/-- One line emitted on the logging surface (the `debug` calls of the
source), recorded structurally rather than as rendered Python repr text. -/
inductive LogEvent where
  | helloEvent (event : LambdaHTTPEvent)
  | lookingForPRs (repos : List Int)
  | prMatch (pr : GitHubWebhookPayloadPullRequest)
  | alertingOnBranch (branch : String)
  | messageIs (message : String)
  | sendingReply (resp : LambdaResponse)
deriving DecidableEq

/-- A returned response together with everything written to the logging
surface during the invocation. -/
structure HandlerResult where
  resp : LambdaResponse
  logs : List LogEvent
deriving DecidableEq

/-- Function `send_reply` (lines 130-132): logs the reply and returns it. -/
def send_reply (logs : List LogEvent) (resp : LambdaResponse) : HandlerResult :=
  ⟨resp, logs ++ [LogEvent.sendingReply resp]⟩

/-- Function `error` (lines 122-123): a 400 response. -/
def errorResp (logs : List LogEvent) (msg : String) : HandlerResult :=
  send_reply logs ⟨400, msg⟩

/-- Function `ok` (lines 126-127): a 200 response. -/
def okResp (logs : List LogEvent) (msg : String) : HandlerResult :=
  send_reply logs ⟨200, msg⟩

/-- A single-quote character, kept out of string literals. -/
def squote : String := String.singleton (Char.ofNat 39)

/-- The body of the 400 reply at line 148: the parser diagnostic embedded in
the fixed text. -/
def couldntParseMsg (e : String) : String :=
  "Couldn" ++ squote ++ "t parse body (" ++ e ++ ")"

/-- The conclusion filter tuple hardcoded at line 158 of the source. Note
that the handler tests membership in this literal tuple, not in
`config["conclusions"]`. -/
def hardcodedConclusions : List String := ["failure", "action_required", "timed_out"]

/-- The suppression body at lines 159-161, which names the hardcoded tuple. -/
def conclusionIgnoredMsg : String :=
  "Ignored based on check_suite conclusion not in (" ++ squote ++ "failure" ++ squote ++
    ", " ++ squote ++ "action_required" ++ squote ++ ", " ++ squote ++ "timed_out" ++ squote ++ ")"

/-- The alert response body at lines 208-209: `json.dumps` of the fixed
one-key object. -/
def alertBody : String := "\x7b\"message\": \"We cared about this message!\"\x7d"

/-- Python slicing `s[:n]` for an `int` bound `n`: a nonnegative bound takes
at most `n` leading characters; a negative bound drops `-n` trailing
characters; out-of-range bounds clamp, never error. -/
def pythonSliceTo (n : Int) (s : String) : String :=
  let len : Int := (s.length : Int)
  let stop : Int := if n < 0 then len + n else n
  String.mk (s.data.take (min stop len).toNat)

/-- An opening-brace character. -/
def lbChar : Char := Char.ofNat 123

/-- A closing-brace character. -/
def rbChar : Char := Char.ofNat 125

/-- Looks up one replacement-field name of the template against the four
keyword arguments passed at lines 200-205; an unknown name is the KeyError
Python `str.format` raises. -/
def lookupField (c cd cm cu : String) (name : String) : Except String String :=
  if name = "conclusion" then Except.ok c
  else if name = "commit_desc" then Except.ok cd
  else if name = "committer" then Except.ok cm
  else if name = "commit_html_url" then Except.ok cu
  else Except.error ("KeyError: " ++ name)

/-- Scanner state for `formatTemplate`. -/
inductive FMode where
  | text
  | sawLb
  | sawRb
  | inName (acc : List Char)

/-- One pass over the template characters, substituting named replacement
fields; doubled braces are literal braces, stray single braces are errors,
as in Python `str.format`. -/
def formatGo (c cd cm cu : String) (mode : FMode) : List Char → Except String String
  | [] =>
    match mode with
    | FMode.text => Except.ok ""
    | FMode.sawLb => Except.error "Single opening brace encountered in format string"
    | FMode.sawRb => Except.error "Single closing brace encountered in format string"
    | FMode.inName _ => Except.error "expected closing brace before end of string"
  | x :: xs =>
    match mode with
    | FMode.text =>
      if x = lbChar then formatGo c cd cm cu FMode.sawLb xs
      else if x = rbChar then formatGo c cd cm cu FMode.sawRb xs
      else do
        let s ← formatGo c cd cm cu FMode.text xs
        Except.ok (String.singleton x ++ s)
    | FMode.sawLb =>
      if x = lbChar then do
        let s ← formatGo c cd cm cu FMode.text xs
        Except.ok (String.singleton lbChar ++ s)
      else if x = rbChar then Except.error "empty replacement field"
      else formatGo c cd cm cu (FMode.inName [x]) xs
    | FMode.sawRb =>
      if x = rbChar then do
        let s ← formatGo c cd cm cu FMode.text xs
        Except.ok (String.singleton rbChar ++ s)
      else Except.error "Single closing brace encountered in format string"
    | FMode.inName acc =>
      if x = rbChar then do
        let v ← lookupField c cd cm cu (String.mk acc)
        let s ← formatGo c cd cm cu FMode.text xs
        Except.ok (v ++ s)
      else formatGo c cd cm cu (FMode.inName (acc ++ [x])) xs

/-- Call `template.format(conclusion=c, commit_desc=cd, committer=cm,
commit_html_url=cu)` as called at lines 200-205. -/
def formatTemplate (tmpl c cd cm cu : String) : Except String String :=
  formatGo c cd cm cu FMode.text tmpl.data

/-- Expression of line 174, with py access `pr.base.repo.id` and at line 174, with `KeyError` on any
missing level. -/
def baseRepoId (pr : GitHubWebhookPayloadPullRequest) : Except Fault Int := do
  let base ← getField "base" pr.base
  let repo ← getField "repo" base.repo
  getField "id" repo.id

/-- The scan loop of lines 173-177: the first pull request whose
`base.repo.id` is watched, together with its log line; the loop `break`s at
the first hit and never inspects later entries. -/
def findMatchingPR (repos : List Int) :
    List GitHubWebhookPayloadPullRequest →
    Except Fault (Option GitHubWebhookPayloadPullRequest × List LogEvent)
  | [] => Except.ok (none, [])
  | pr :: rest => do
    let rid ← baseRepoId pr
    if rid ∈ repos then
      Except.ok (some pr, [LogEvent.prMatch pr])
    else
      findMatchingPR repos rest

/-- Lines 170-177: when `watch_prs` is enabled, log the watched repos and
scan the pull-request list for the first match; otherwise no scan happens
and `matching_pr` stays `None`. -/
def scanPRs (cfg : Config) (check_suite : GitHubWebhookPayloadCheckSuiteSection) :
    Except Fault (Option GitHubWebhookPayloadPullRequest × List LogEvent) :=
  if cfg.watch_prs = true then do
    let prs ← getField "pull_requests" check_suite.pull_requests
    let res ← findMatchingPR cfg.repos prs
    Except.ok (res.1, [LogEvent.lookingForPRs cfg.repos] ++ res.2)
  else
    Except.ok ((none : Option GitHubWebhookPayloadPullRequest), ([] : List LogEvent))

/-- The resolved alert variables of lines 186-198. -/
structure AlertVars where
  commit_desc : String
  committer : String
  commit_html_url : String
deriving DecidableEq

/-- Variable resolution, lines 186-198: shared fields first, then the PR
path when a matching PR exists, the branch path otherwise. -/
def resolveVars (cfg : Config) (repository : GitHubWebhookPayloadRepositorySection)
    (check_suite : GitHubWebhookPayloadCheckSuiteSection)
    (matching_pr : Option GitHubWebhookPayloadPullRequest) (branch : String) :
    Except Fault AlertVars := do
  let owner ← getField "owner" repository.owner
  let owner_base_url ← getField "html_url" owner.html_url
  let repo_name ← getField "name" repository.name
  let head_commit ← getField "head_commit" check_suite.head_commit
  let committerRec ← getField "committer" head_commit.committer
  let committer ← getField "name" committerRec.name
  match matching_pr with
  | some mpr => do
    let pr_num ← getField "number" mpr.number
    Except.ok
      ⟨"PR #" ++ toString pr_num, committer,
        owner_base_url ++ "/" ++ repo_name ++ "/pull/" ++ toString pr_num ++
          "#partial-pull-merging"⟩
  | none => do
    let head_sha ← getField "head_sha" check_suite.head_sha
    let sha := pythonSliceTo cfg.sha_length head_sha
    Except.ok
      ⟨sha ++ " (branch " ++ branch ++ ")", committer,
        owner_base_url ++ "/" ++ repo_name ++ "/commit/" ++ sha⟩

/-- Lines 200-209: format the alert message, log it, and return the fixed
200 acknowledgement body. A formatting failure propagates as a fault. -/
def respond (cfg : Config) (conclusion commit_desc committer commit_html_url : String)
    (logs : List LogEvent) : Except Fault HandlerResult :=
  match formatTemplate cfg.message_template conclusion commit_desc committer commit_html_url with
  | Except.error e => Except.error (Fault.formatError e)
  | Except.ok message =>
    Except.ok (okResp (logs ++ [LogEvent.messageIs message]) alertBody)

/-- Function `handler` (lines 135-209). The configuration is passed
explicitly (the source reads the module-level `config`; section 9 of the
spec models it as an injected immutable value) and `parse` stands for
`json.loads`. -/
def handler (parse : String → Except String GitHubWebhookPayload) (cfg : Config)
    (event : LambdaHTTPEvent) : Except Fault HandlerResult :=
  let logs0 := [LogEvent.helloEvent event]
  match dictGet "X-GitHub-Event" event.headers with
  | none => Except.ok (errorResp logs0 "Missing X-GitHub-Event header")
  | some event_type =>
    if event_type ≠ "check_suite" then
      Except.ok (okResp logs0 "Ignored based on X-GitHub-Event value")
    else
      match parse event.body with
      | Except.error e => Except.ok (errorResp logs0 (couldntParseMsg e))
      | Except.ok body => do
        let action ← getField "action" body.action
        if action ≠ "completed" then
          Except.ok (okResp logs0 "Ignored based on action != completed")
        else do
          let check_suite ← getField "check_suite" body.check_suite
          let status ← getField "status" check_suite.status
          if status ≠ "completed" then
            Except.ok (okResp logs0 "Ignored based on check_suite status != completed")
          else do
            let conclusion ← getField "conclusion" check_suite.conclusion
            if conclusion ∉ hardcodedConclusions then
              Except.ok (okResp logs0 conclusionIgnoredMsg)
            else do
              let repository ← getField "repository" body.repository
              let base_repo_id ← getField "id" repository.id
              if base_repo_id ∉ cfg.repos then
                Except.ok (okResp logs0
                  ("Ignored based on non-watched base repository (" ++
                    toString base_repo_id ++ ")"))
              else do
                let scan ← scanPRs cfg check_suite
                let matching_pr := scan.1
                let logs1 := logs0 ++ scan.2
                let branch ← getField "head_branch" check_suite.head_branch
                match matching_pr with
                | none =>
                  if branch ∉ cfg.branches then
                    Except.ok (okResp logs1 "Ignored based on no matching PR/branch")
                  else do
                    let logs2 := logs1 ++ [LogEvent.alertingOnBranch branch]
                    let vars ← resolveVars cfg repository check_suite none branch
                    respond cfg conclusion vars.commit_desc vars.committer
                      vars.commit_html_url logs2
                | some mpr => do
                  let vars ← resolveVars cfg repository check_suite (some mpr) branch
                  respond cfg conclusion vars.commit_desc vars.committer
                    vars.commit_html_url logs1

/-! ## Concrete fixtures

A well-formed payload following the scenario of section 8 of the spec:
repository id 23038334, branch `master`, conclusion `failure`, a 40-character
hex `head_sha`, committer `Alice`. -/

/-- Fixture check-suite section (spec section 8 scenario). -/
def csFixture : GitHubWebhookPayloadCheckSuiteSection :=
  ⟨some "master", some "0123456789abcdef0123456789abcdef01234567", some "completed",
    some "failure", none, some [], none, some "2020-01-01T00:00:00Z",
    some ⟨some ⟨some "Alice"⟩⟩⟩

/-- Fixture repository section. -/
def repoFixture : GitHubWebhookPayloadRepositorySection :=
  ⟨some 23038334, some "crawl", none, none, some ⟨none, none, some "https://github.com/crawl"⟩⟩

/-- Fixture payload. -/
def payloadFixture : GitHubWebhookPayload := ⟨some "completed", some csFixture, some repoFixture⟩

/-- Fixture inbound event with the exact header name. -/
def eventFixture : LambdaHTTPEvent :=
  ⟨[("X-GitHub-Event", "check_suite")], [], "POST", "/", "payload-body"⟩

/-- Fixture inbound event whose header map holds the event-type header only
under a lowercase name. -/
def eventLowerHeader : LambdaHTTPEvent :=
  ⟨[("x-github-event", "check_suite")], [], "POST", "/", "payload-body"⟩

/-- Fixture parser standing for `json.loads` on the fixture body. -/
def parseFixture : String → Except String GitHubWebhookPayload :=
  fun _ => Except.ok payloadFixture

/-- A configuration whose alertable-conclusions list is `["cancelled"]`. -/
def cfgCancelled : Config := { config with conclusions := ["cancelled"] }

/-- The fixture payload with conclusion `cancelled`. -/
def payloadCancelled : GitHubWebhookPayload :=
  ⟨some "completed", some { csFixture with conclusion := some "cancelled" }, some repoFixture⟩

/-! ## Helper lemmas -/

/-- Python `s[:n]` with a nonnegative bound takes the first `n` characters. -/
theorem pythonSliceTo_nonneg (n : Int) (s : String) (h : 0 ≤ n) :
    pythonSliceTo n s = String.mk (s.data.take n.toNat) := by
  unfold pythonSliceTo
  have h1 : ¬ n < 0 := by omega
  simp only [if_neg h1]
  congr 1
  have h2 : (min n ((s.length : Nat) : Int)).toNat = min n.toNat s.length := by omega
  rw [h2]
  apply List.take_eq_take.mpr
  have hlen : s.length = s.data.length := rfl
  omega

/-- Python `s[:n]` with a bound at least the length returns `s` whole. -/
theorem pythonSliceTo_of_length_le (n : Int) (s : String) (h : (s.length : Int) ≤ n) :
    pythonSliceTo n s = s := by
  have h0 : 0 ≤ n := le_trans (by exact_mod_cast Nat.zero_le s.length) h
  rw [pythonSliceTo_nonneg n s h0]
  have hlen : s.length = s.data.length := rfl
  have h2 : s.data.length ≤ n.toNat := by omega
  rw [List.take_of_length_le h2]

/-! ## Claims -/

/-- C2 counterexample: an event whose header map carries the event type only
under the lowercase name `x-github-event` is not found by the lookup, and the
handler rejects with the missing-header 400 even though the header is present
under that casing — refuting case-insensitivity of the lookup. -/
theorem header_lookup_not_case_insensitive_cex :
    dictGet "x-github-event" eventLowerHeader.headers = some "check_suite" ∧
    (handler parseFixture config eventLowerHeader).map (fun r => r.resp) =
      Except.ok ⟨400, "Missing X-GitHub-Event header"⟩ :=
  ⟨rfl, rfl⟩

/-- C2 (amended): the event-type lookup is an exact, case-sensitive match on
the key `X-GitHub-Event`; any event whose header map has no pair with exactly
that key — even one holding a differently-cased variant — yields a 400
response with body `Missing X-GitHub-Event header`. -/
theorem missing_exact_header_rejected (parse : String → Except String GitHubWebhookPayload)
    (cfg : Config) (event : LambdaHTTPEvent)
    (h : dictGet "X-GitHub-Event" event.headers = none) :
    handler parse cfg event =
      Except.ok (errorResp [LogEvent.helloEvent event] "Missing X-GitHub-Event header") := by
  simp [handler, h]

/-- C2 witness: the amended theorem applied to the lowercase-header event. -/
theorem missing_exact_header_rejected_witness :
    handler parseFixture config eventLowerHeader =
      Except.ok (errorResp [LogEvent.helloEvent eventLowerHeader]
        "Missing X-GitHub-Event header") :=
  missing_exact_header_rejected parseFixture config eventLowerHeader (by rfl)

/-- C8: whenever the event type is `check_suite` but the body parser fails
with diagnostic `e`, the handler immediately returns a 400 response whose
body is the parser diagnostic embedded in `Couldn..t parse body (...)`, and
the decision pipeline is never entered. -/
theorem parse_failure_400 (parse : String → Except String GitHubWebhookPayload)
    (cfg : Config) (event : LambdaHTTPEvent) (e : String)
    (hev : dictGet "X-GitHub-Event" event.headers = some "check_suite")
    (hparse : parse event.body = Except.error e) :
    handler parse cfg event =
      Except.ok (errorResp [LogEvent.helloEvent event] (couldntParseMsg e)) := by
  simp [handler, hev, hparse]

/-- C8 witness: a parser failure with a concrete diagnostic. -/
theorem parse_failure_400_witness :
    handler (fun _ => Except.error "Expecting value: line 1 column 1 (char 0)") config
        eventFixture =
      Except.ok (errorResp [LogEvent.helloEvent eventFixture]
        (couldntParseMsg "Expecting value: line 1 column 1 (char 0)")) :=
  parse_failure_400 (fun _ => Except.error "Expecting value: line 1 column 1 (char 0)")
    config eventFixture "Expecting value: line 1 column 1 (char 0)" (by rfl) (by rfl)

/-- C1: the conclusion filter is NOT determined by the configuration. With a
configuration whose alertable-conclusions list is `["cancelled"]` and a
payload whose conclusion is `cancelled` (a member of that list, so the claim
says no suppression), the handler still suppresses with the message naming
the hardcoded tuple of line 158: the code tests membership in the literal
`("failure", "action_required", "timed_out")`, never reading
`config["conclusions"]`. -/
theorem conclusion_filter_hardcoded_cex :
    "cancelled" ∈ cfgCancelled.conclusions ∧
    "cancelled" ∉ hardcodedConclusions ∧
    (handler (fun _ => Except.ok payloadCancelled) cfgCancelled eventFixture).map
        (fun r => r.resp) =
      Except.ok ⟨200, conclusionIgnoredMsg⟩ := by
  refine ⟨by decide, by decide, rfl⟩

/-- Bind on `Except` of a success passes the value on. -/
@[simp] theorem exceptBind_ok {ε α β : Type} (a : α) (f : α → Except ε β) :
    ((Except.ok a : Except ε α) >>= f) = f a := rfl

/-- Bind on `Except` of an error short-circuits. -/
@[simp] theorem exceptBind_error {ε α β : Type} (e : ε) (f : α → Except ε β) :
    ((Except.error e : Except ε α) >>= f) = Except.error e := rfl

/-- C4: every successful run of the alert arm returns status 200 with the
fixed acknowledgement body `json.dumps` of the one-key object, while the
formatted alert message (the template populated with the four variables) is
emitted only as a `messageIs` line on the logging surface, never in the
response body. Both alert paths of the handler return through `respond`. -/
theorem alert_response_constant_body (cfg : Config) (c cd cm cu : String)
    (logs : List LogEvent) (r : HandlerResult)
    (h : respond cfg c cd cm cu logs = Except.ok r) :
    r.resp.statusCode = 200 ∧ r.resp.body = alertBody ∧
      ∃ m, formatTemplate cfg.message_template c cd cm cu = Except.ok m ∧
        LogEvent.messageIs m ∈ r.logs := by
  unfold respond at h
  cases hf : formatTemplate cfg.message_template c cd cm cu with
  | error e => rw [hf] at h; exact absurd h (by simp)
  | ok m =>
    rw [hf] at h
    injection h with h'
    subst h'
    refine ⟨rfl, rfl, m, rfl, ?_⟩
    simp [okResp, send_reply]

/-- C4 witness: the expected result of a concrete alert response. -/
def respondSampleResult : HandlerResult :=
  ⟨⟨200, alertBody⟩,
    [LogEvent.messageIs "Build failure at x (by Alice). Details: u",
      LogEvent.sendingReply ⟨200, alertBody⟩]⟩

/-- C4 witness: the theorem applied to the shipped configuration and
concrete alert variables. -/
theorem alert_response_constant_body_witness :
    respondSampleResult.resp.statusCode = 200 ∧
      respondSampleResult.resp.body = alertBody ∧
      ∃ m, formatTemplate config.message_template "failure" "x" "Alice" "u" = Except.ok m ∧
        LogEvent.messageIs m ∈ respondSampleResult.logs :=
  alert_response_constant_body config "failure" "x" "Alice" "u" [] respondSampleResult (by rfl)

/-- C6: the pull-request scan selects exactly the first pull request in
sequence order whose `base.repo.id` is watched; the entries after the first
hit are never inspected (`ys` is entirely unconstrained, so later matching or
even malformed pull requests are irrelevant), and only the first hit is
logged. -/
theorem first_matching_pr_wins (repos : List Int)
    (xs ys : List GitHubWebhookPayloadPullRequest)
    (pr : GitHubWebhookPayloadPullRequest) (j : Int)
    (hxs : ∀ q ∈ xs, ∃ i, baseRepoId q = Except.ok i ∧ i ∉ repos)
    (hpr : baseRepoId pr = Except.ok j) (hj : j ∈ repos) :
    findMatchingPR repos (xs ++ pr :: ys) =
      Except.ok (some pr, [LogEvent.prMatch pr]) := by
  induction xs with
  | nil => simp [findMatchingPR, hpr, hj]
  | cons q qs ih =>
    obtain ⟨i, hq, hni⟩ := hxs q (List.mem_cons_self q qs)
    have ih' := ih (fun p hp => hxs p (List.mem_cons_of_mem q hp))
    simp [findMatchingPR, hq, hni, ih']

/-- C6 witness fixture: a pull request whose base repo is unwatched. -/
def prOther : GitHubWebhookPayloadPullRequest :=
  ⟨none, none, some 5, none, some ⟨none, none, some ⟨some 555, none, none⟩⟩⟩

/-- C6 witness fixture: the first matching pull request, number 42. -/
def prFirstMatch : GitHubWebhookPayloadPullRequest :=
  ⟨none, none, some 42, none, some ⟨none, none, some ⟨some 23038334, none, none⟩⟩⟩

/-- C6 witness fixture: a second matching pull request, number 7. -/
def prSecondMatch : GitHubWebhookPayloadPullRequest :=
  ⟨none, none, some 7, none, some ⟨none, none, some ⟨some 23038334, none, none⟩⟩⟩

/-- C6 witness: with two matching pull requests in the list, the scan
returns the first one. -/
theorem first_matching_pr_wins_witness :
    findMatchingPR [23038334] [prOther, prFirstMatch, prSecondMatch] =
      Except.ok (some prFirstMatch, [LogEvent.prMatch prFirstMatch]) :=
  first_matching_pr_wins [23038334] [prOther] [prSecondMatch] prFirstMatch 23038334
    (by
      intro q hq
      simp only [List.mem_singleton] at hq
      subst hq
      exact ⟨555, rfl, by decide⟩)
    (by rfl) (by decide)

/-- C9: head-sha truncation is total. When the configured `sha_length` is at
least the length of `head_sha`, the branch-path variables embed the entire
`head_sha` string, with no error and no padding. -/
theorem sha_truncation_total (cfg : Config)
    (repository : GitHubWebhookPayloadRepositorySection)
    (check_suite : GitHubWebhookPayloadCheckSuiteSection)
    (owner : GitHubWebhookPerson) (head_commit : GitHubHeadCommit)
    (committerRec : GitHubCommitCommitter)
    (branch owner_url repo_name committer shaStr : String)
    (hlen : (shaStr.length : Int) ≤ cfg.sha_length)
    (howner : repository.owner = some owner) (hou : owner.html_url = some owner_url)
    (hname : repository.name = some repo_name)
    (hhc : check_suite.head_commit = some head_commit)
    (hcm : head_commit.committer = some committerRec)
    (hcn : committerRec.name = some committer)
    (hsha : check_suite.head_sha = some shaStr) :
    resolveVars cfg repository check_suite none branch =
      Except.ok
        ⟨shaStr ++ " (branch " ++ branch ++ ")", committer,
          owner_url ++ "/" ++ repo_name ++ "/commit/" ++ shaStr⟩ := by
  have hslice : pythonSliceTo cfg.sha_length shaStr = shaStr :=
    pythonSliceTo_of_length_le cfg.sha_length shaStr hlen
  simp [resolveVars, getField, howner, hou, hname, hhc, hcm, hcn, hsha, hslice]

/-- C9 witness: `sha_length` 50 on a 40-character sha leaves it whole. -/
theorem sha_truncation_total_witness :
    resolveVars { config with sha_length := 50 } repoFixture csFixture none "master" =
      Except.ok
        ⟨"0123456789abcdef0123456789abcdef01234567" ++ " (branch " ++ "master" ++ ")",
          "Alice",
          "https://github.com/crawl" ++ "/" ++ "crawl" ++ "/commit/" ++
            "0123456789abcdef0123456789abcdef01234567"⟩ :=
  sha_truncation_total { config with sha_length := 50 } repoFixture csFixture
    ⟨none, none, some "https://github.com/crawl"⟩ ⟨some ⟨some "Alice"⟩⟩ ⟨some "Alice"⟩
    "master" "https://github.com/crawl" "crawl" "Alice"
    "0123456789abcdef0123456789abcdef01234567"
    (by decide) (by rfl) (by rfl) (by rfl) (by rfl) (by rfl) (by rfl) (by rfl)

/-- C3: when the pipeline has found a matching pull request (`scanPRs`
returned one, which requires `watch_prs` enabled), the handler resolves the
alert variables via the PR path — `commit_desc` is `PR #<number>` and the
URL is the PR-style one — even though `head_branch` is also a member of the
watched-branches set (`hb`); the branch path (and its `alertingOnBranch`
log line) is never used. -/
theorem pr_path_precedence (parse : String → Except String GitHubWebhookPayload)
    (cfg : Config) (event : LambdaHTTPEvent)
    (check_suite : GitHubWebhookPayloadCheckSuiteSection)
    (repository : GitHubWebhookPayloadRepositorySection)
    (mpr : GitHubWebhookPayloadPullRequest) (slogs : List LogEvent)
    (owner : GitHubWebhookPerson) (head_commit : GitHubHeadCommit)
    (committerRec : GitHubCommitCommitter)
    (rid n : Int) (c branch owner_url repo_name committer : String)
    (hev : dictGet "X-GitHub-Event" event.headers = some "check_suite")
    (hparse : parse event.body =
      Except.ok ⟨some "completed", some check_suite, some repository⟩)
    (hstatus : check_suite.status = some "completed")
    (hconc : check_suite.conclusion = some c)
    (hc : c ∈ hardcodedConclusions)
    (hrid : repository.id = some rid) (hr : rid ∈ cfg.repos)
    (hscan : scanPRs cfg check_suite = Except.ok (some mpr, slogs))
    (hbranch : check_suite.head_branch = some branch)
    (hb : branch ∈ cfg.branches)
    (hn : mpr.number = some n)
    (howner : repository.owner = some owner) (hou : owner.html_url = some owner_url)
    (hname : repository.name = some repo_name)
    (hhc : check_suite.head_commit = some head_commit)
    (hcm : head_commit.committer = some committerRec)
    (hcn : committerRec.name = some committer) :
    handler parse cfg event =
      respond cfg c ("PR #" ++ toString n) committer
        (owner_url ++ "/" ++ repo_name ++ "/pull/" ++ toString n ++ "#partial-pull-merging")
        ([LogEvent.helloEvent event] ++ slogs) := by
  simp [handler, hev, hparse, getField, hstatus, hconc, hc, hrid, hr, hscan,
    hbranch, hn, resolveVars, howner, hou, hname, hhc, hcm, hcn]

/-- C3 witness fixture: the spec scenario check suite with one matching PR
(number 42, base repo 23038334) attached. -/
def csPRFixture : GitHubWebhookPayloadCheckSuiteSection :=
  { csFixture with pull_requests := some [prFirstMatch] }

/-- C3 witness fixture: the payload with the PR-bearing check suite. -/
def payloadPRFixture : GitHubWebhookPayload :=
  ⟨some "completed", some csPRFixture, some repoFixture⟩

/-- C3 witness: the PR path wins on the concrete scenario of spec section 8
(branch `master` also matches, `commit_desc` comes out `PR #42`). -/
theorem pr_path_precedence_witness :
    handler (fun _ => Except.ok payloadPRFixture) config eventFixture =
      respond config "failure" ("PR #" ++ toString (42 : Int)) "Alice"
        ("https://github.com/crawl" ++ "/" ++ "crawl" ++ "/pull/" ++ toString (42 : Int) ++
          "#partial-pull-merging")
        ([LogEvent.helloEvent eventFixture] ++
          [LogEvent.lookingForPRs config.repos, LogEvent.prMatch prFirstMatch]) :=
  pr_path_precedence (fun _ => Except.ok payloadPRFixture) config eventFixture
    csPRFixture repoFixture prFirstMatch
    [LogEvent.lookingForPRs config.repos, LogEvent.prMatch prFirstMatch]
    ⟨none, none, some "https://github.com/crawl"⟩ ⟨some ⟨some "Alice"⟩⟩ ⟨some "Alice"⟩
    23038334 42 "failure" "master" "https://github.com/crawl" "crawl" "Alice"
    (by rfl) (by rfl) (by rfl) (by rfl) (by decide) (by rfl) (by decide) (by rfl)
    (by rfl) (by decide) (by rfl) (by rfl) (by rfl) (by rfl) (by rfl) (by rfl) (by rfl)

/-- C7: on the branch path (no matching PR from the scan, `head_branch`
watched), the alert variables are: `commit_desc` = the first `sha_length`
characters of `head_sha` followed by `" (branch <head_branch>)"`, and
`commit_html_url` = `<owner_html_url>/<repo_name>/commit/<truncated_sha>`. -/
theorem branch_path_variables (parse : String → Except String GitHubWebhookPayload)
    (cfg : Config) (event : LambdaHTTPEvent)
    (check_suite : GitHubWebhookPayloadCheckSuiteSection)
    (repository : GitHubWebhookPayloadRepositorySection)
    (slogs : List LogEvent)
    (owner : GitHubWebhookPerson) (head_commit : GitHubHeadCommit)
    (committerRec : GitHubCommitCommitter)
    (rid : Int) (c branch owner_url repo_name committer shaStr : String)
    (hev : dictGet "X-GitHub-Event" event.headers = some "check_suite")
    (hparse : parse event.body =
      Except.ok ⟨some "completed", some check_suite, some repository⟩)
    (hstatus : check_suite.status = some "completed")
    (hconc : check_suite.conclusion = some c)
    (hc : c ∈ hardcodedConclusions)
    (hrid : repository.id = some rid) (hr : rid ∈ cfg.repos)
    (hscan : scanPRs cfg check_suite = Except.ok (none, slogs))
    (hbranch : check_suite.head_branch = some branch)
    (hb : branch ∈ cfg.branches)
    (h0 : 0 ≤ cfg.sha_length)
    (hsha : check_suite.head_sha = some shaStr)
    (howner : repository.owner = some owner) (hou : owner.html_url = some owner_url)
    (hname : repository.name = some repo_name)
    (hhc : check_suite.head_commit = some head_commit)
    (hcm : head_commit.committer = some committerRec)
    (hcn : committerRec.name = some committer) :
    handler parse cfg event =
      respond cfg c
        (String.mk (shaStr.data.take cfg.sha_length.toNat) ++ " (branch " ++ branch ++ ")")
        committer
        (owner_url ++ "/" ++ repo_name ++ "/commit/" ++
          String.mk (shaStr.data.take cfg.sha_length.toNat))
        ([LogEvent.helloEvent event] ++ slogs ++ [LogEvent.alertingOnBranch branch]) := by
  simp [handler, hev, hparse, getField, hstatus, hconc, hc, hrid, hr, hscan,
    hbranch, hb, resolveVars, howner, hou, hname, hhc, hcm, hcn, hsha,
    pythonSliceTo_nonneg cfg.sha_length shaStr h0]

/-- C7 witness: the spec section 8 branch scenario; the truncated sha is the
first 8 characters of the fixture sha. -/
theorem branch_path_variables_witness :
    handler parseFixture config eventFixture =
      respond config "failure"
        (String.mk (("0123456789abcdef0123456789abcdef01234567" : String).data.take
          config.sha_length.toNat) ++ " (branch " ++ "master" ++ ")")
        "Alice"
        ("https://github.com/crawl" ++ "/" ++ "crawl" ++ "/commit/" ++
          String.mk (("0123456789abcdef0123456789abcdef01234567" : String).data.take
            config.sha_length.toNat))
        ([LogEvent.helloEvent eventFixture] ++ [LogEvent.lookingForPRs config.repos] ++
          [LogEvent.alertingOnBranch "master"]) :=
  branch_path_variables parseFixture config eventFixture csFixture repoFixture
    [LogEvent.lookingForPRs config.repos]
    ⟨none, none, some "https://github.com/crawl"⟩ ⟨some ⟨some "Alice"⟩⟩ ⟨some "Alice"⟩
    23038334 "failure" "master" "https://github.com/crawl" "crawl" "Alice"
    "0123456789abcdef0123456789abcdef01234567"
    (by rfl) (by rfl) (by rfl) (by rfl) (by decide) (by rfl) (by decide) (by rfl)
    (by rfl) (by decide) (by decide) (by rfl) (by rfl) (by rfl) (by rfl) (by rfl)
    (by rfl) (by rfl)

/-- C5: the pipeline predicates are evaluated strictly in order — action,
status, conclusion membership, repository membership — and the first failing
one immediately yields its 200 suppression response. In each conjunct every
field beyond the ones the failing step needs is arbitrary (it may even be
absent), so no later predicate is evaluated; in particular a payload with
`action` not `completed` is answered from step 1 alone. -/
theorem pipeline_short_circuit_order :
    (∀ (parse : String → Except String GitHubWebhookPayload) (cfg : Config)
        (event : LambdaHTTPEvent) (body : GitHubWebhookPayload) (a : String),
      dictGet "X-GitHub-Event" event.headers = some "check_suite" →
      parse event.body = Except.ok body →
      body.action = some a → a ≠ "completed" →
      handler parse cfg event =
        Except.ok (okResp [LogEvent.helloEvent event]
          "Ignored based on action != completed")) ∧
    (∀ (parse : String → Except String GitHubWebhookPayload) (cfg : Config)
        (event : LambdaHTTPEvent) (body : GitHubWebhookPayload)
        (cs : GitHubWebhookPayloadCheckSuiteSection) (s : String),
      dictGet "X-GitHub-Event" event.headers = some "check_suite" →
      parse event.body = Except.ok body →
      body.action = some "completed" → body.check_suite = some cs →
      cs.status = some s → s ≠ "completed" →
      handler parse cfg event =
        Except.ok (okResp [LogEvent.helloEvent event]
          "Ignored based on check_suite status != completed")) ∧
    (∀ (parse : String → Except String GitHubWebhookPayload) (cfg : Config)
        (event : LambdaHTTPEvent) (body : GitHubWebhookPayload)
        (cs : GitHubWebhookPayloadCheckSuiteSection) (c : String),
      dictGet "X-GitHub-Event" event.headers = some "check_suite" →
      parse event.body = Except.ok body →
      body.action = some "completed" → body.check_suite = some cs →
      cs.status = some "completed" → cs.conclusion = some c →
      c ∉ hardcodedConclusions →
      handler parse cfg event =
        Except.ok (okResp [LogEvent.helloEvent event] conclusionIgnoredMsg)) ∧
    (∀ (parse : String → Except String GitHubWebhookPayload) (cfg : Config)
        (event : LambdaHTTPEvent) (body : GitHubWebhookPayload)
        (cs : GitHubWebhookPayloadCheckSuiteSection)
        (repoS : GitHubWebhookPayloadRepositorySection) (c : String) (rid : Int),
      dictGet "X-GitHub-Event" event.headers = some "check_suite" →
      parse event.body = Except.ok body →
      body.action = some "completed" → body.check_suite = some cs →
      cs.status = some "completed" → cs.conclusion = some c →
      c ∈ hardcodedConclusions →
      body.repository = some repoS → repoS.id = some rid → rid ∉ cfg.repos →
      handler parse cfg event =
        Except.ok (okResp [LogEvent.helloEvent event]
          ("Ignored based on non-watched base repository (" ++ toString rid ++ ")"))) := by
  refine ⟨?_, ?_, ?_, ?_⟩
  · intro parse cfg event body a hev hparse ha hne
    simp [handler, hev, hparse, getField, ha, hne]
  · intro parse cfg event body cs s hev hparse ha hcs hs hne
    simp [handler, hev, hparse, getField, ha, hcs, hs, hne]
  · intro parse cfg event body cs c hev hparse ha hcs hs hconc hnc
    simp [handler, hev, hparse, getField, ha, hcs, hs, hconc, hnc]
  · intro parse cfg event body cs repoS c rid hev hparse ha hcs hs hconc hc hrep hrid hnr
    simp [handler, hev, hparse, getField, ha, hcs, hs, hconc, hc, hrep, hrid, hnr]

/-- C5 witness: a payload with action `requested` is suppressed at step 1
even though the rest of the fixture payload passes every later predicate. -/
theorem pipeline_short_circuit_order_witness :
    handler (fun _ => Except.ok ⟨some "requested", some csFixture, some repoFixture⟩)
        config eventFixture =
      Except.ok (okResp [LogEvent.helloEvent eventFixture]
        "Ignored based on action != completed") :=
  pipeline_short_circuit_order.1
    (fun _ => Except.ok ⟨some "requested", some csFixture, some repoFixture⟩)
    config eventFixture ⟨some "requested", some csFixture, some repoFixture⟩ "requested"
    (by rfl) (by rfl) (by rfl) (by decide)

/-- C10: a payload suppressed at one of the first four steps is answered
without reading `check_suite.pull_requests`, `head_branch`, `head_sha`,
`head_commit`, `repository.name` or `repository.owner`: here all those
fields are literally absent (`none`, which would fault as a `KeyError` if
read) and each of the four suppressions still returns its normal 200
response with no fault. -/
theorem early_suppression_reads_no_late_fields :
    (∀ (parse : String → Except String GitHubWebhookPayload) (cfg : Config)
        (event : LambdaHTTPEvent) (a : String),
      dictGet "X-GitHub-Event" event.headers = some "check_suite" →
      parse event.body = Except.ok ⟨some a, none, none⟩ →
      a ≠ "completed" →
      handler parse cfg event =
        Except.ok (okResp [LogEvent.helloEvent event]
          "Ignored based on action != completed")) ∧
    (∀ (parse : String → Except String GitHubWebhookPayload) (cfg : Config)
        (event : LambdaHTTPEvent) (s : String),
      dictGet "X-GitHub-Event" event.headers = some "check_suite" →
      parse event.body = Except.ok
        ⟨some "completed",
          some ⟨none, none, some s, none, none, none, none, none, none⟩, none⟩ →
      s ≠ "completed" →
      handler parse cfg event =
        Except.ok (okResp [LogEvent.helloEvent event]
          "Ignored based on check_suite status != completed")) ∧
    (∀ (parse : String → Except String GitHubWebhookPayload) (cfg : Config)
        (event : LambdaHTTPEvent) (c : String),
      dictGet "X-GitHub-Event" event.headers = some "check_suite" →
      parse event.body = Except.ok
        ⟨some "completed",
          some ⟨none, none, some "completed", some c, none, none, none, none, none⟩,
          none⟩ →
      c ∉ hardcodedConclusions →
      handler parse cfg event =
        Except.ok (okResp [LogEvent.helloEvent event] conclusionIgnoredMsg)) ∧
    (∀ (parse : String → Except String GitHubWebhookPayload) (cfg : Config)
        (event : LambdaHTTPEvent) (c : String) (rid : Int),
      dictGet "X-GitHub-Event" event.headers = some "check_suite" →
      parse event.body = Except.ok
        ⟨some "completed",
          some ⟨none, none, some "completed", some c, none, none, none, none, none⟩,
          some ⟨some rid, none, none, none, none⟩⟩ →
      c ∈ hardcodedConclusions → rid ∉ cfg.repos →
      handler parse cfg event =
        Except.ok (okResp [LogEvent.helloEvent event]
          ("Ignored based on non-watched base repository (" ++ toString rid ++ ")"))) := by
  refine ⟨?_, ?_, ?_, ?_⟩
  · intro parse cfg event a hev hparse hne
    simp [handler, hev, hparse, getField, hne]
  · intro parse cfg event s hev hparse hne
    simp [handler, hev, hparse, getField, hne]
  · intro parse cfg event c hev hparse hnc
    simp [handler, hev, hparse, getField, hnc]
  · intro parse cfg event c rid hev hparse hc hnr
    simp [handler, hev, hparse, getField, hc, hnr]

/-- C10 witness: an alertable conclusion on a non-watched repository id 999,
with every later-read field absent, is still suppressed normally at step 4. -/
theorem early_suppression_reads_no_late_fields_witness :
    handler
        (fun _ => Except.ok
          ⟨some "completed",
            some ⟨none, none, some "completed", some "failure", none, none, none, none, none⟩,
            some ⟨some 999, none, none, none, none⟩⟩)
        config eventFixture =
      Except.ok (okResp [LogEvent.helloEvent eventFixture]
        ("Ignored based on non-watched base repository (" ++ toString (999 : Int) ++ ")")) :=
  early_suppression_reads_no_late_fields.2.2.2
    (fun _ => Except.ok
      ⟨some "completed",
        some ⟨none, none, some "completed", some "failure", none, none, none, none, none⟩,
        some ⟨some 999, none, none, none, none⟩⟩)
    config eventFixture "failure" 999 (by rfl) (by rfl) (by decide) (by decide)
